import Mathlib

/-!
Verification of the metrics and risk-analysis engine of the Scrum-Master
agent repository.  The Python sources are shallowly embedded:

* Python dictionaries holding the records that the code reads with
  `dict.get` are modelled as structures whose fields are `Option`-valued
  (`none` = key absent, or present with the value `None`, which the code
  never distinguishes through `.get`); dictionaries that are built up by
  item assignment (`d[k] = v`) are modelled as insertion-ordered
  association lists (`List (String × α)`).
* Timestamps are modelled as integers (one unit = one day, so the
  `timedelta(days=3)` of the source becomes the constant `threeDays`).
  A due-date string is modelled by the result of parsing it: the field
  `due : Option (Option Int)` is `none` when the `"due"` key is absent or
  `None`/empty (falsy in the source), `some none` when a string is present
  but `datetime.fromisoformat` raises, and `some (some t)` when it parses
  to the instant `t`.
* Python floats are modelled as exact rationals `ℚ`.
* Every reading of the ambient clock (`datetime.now()`) becomes an
  explicit parameter `now : Int` of the embedded function.
-/

namespace Scrum

/-! ### Association lists modelling Python dict insertion-order semantics -/

/-- `d.get(k)` on an insertion-ordered dictionary. -/
def alGet {α : Type} (m : List (String × α)) (k : String) : Option α :=
  (m.find? (fun p => p.1 == k)).map (fun p => p.2)

/-- `d[k] = v`: update in place when the key exists (keeping its position),
otherwise append at the end — exactly Python dict assignment. -/
def alSet {α : Type} (m : List (String × α)) (k : String) (v : α) : List (String × α) :=
  if (m.find? (fun p => p.1 == k)).isSome then
    m.map (fun p => if p.1 == k then (k, v) else p)
  else
    m ++ [(k, v)]

/-! ### Substring search, modelling Python `"pat" in s` -/

/-- `charsStartWith pat s` : `pat` is an initial segment of `s`. -/
def charsStartWith : List Char → List Char → Bool
  | [], _ => true
  | _ :: _, [] => false
  | p :: ps, s :: ss => p == s && charsStartWith ps ss

/-- `charsContain pat s` : `pat` occurs contiguously inside `s`
(Python `pat in s`). -/
def charsContain (pat : List Char) : List Char → Bool
  | [] => pat.isEmpty
  | s :: ss => charsStartWith pat (s :: ss) || charsContain pat ss

/-- `"blocker" in text.lower()` from the source. -/
def strContainsBlocker (text : String) : Bool :=
  charsContain "blocker".toList text.toLower.toList

/-- Python slicing `s[:n]`. -/
def strTake (n : Nat) (s : String) : String :=
  String.mk (s.toList.take n)

/-- `timedelta(days=3)` with one integer unit per day. -/
def threeDays : Int := 3

/-! ### Data model: the raw Trello records the Python code reads -/

/-- One entry of the `labels` list of a card: the code reads
`label.get("color")` and `label.get("name", "Blocker")`. -/
structure TrelloLabel where
  color : Option String
  name : Option String
deriving DecidableEq

/-- A comment already extracted from the actions of a card (the shape stored
under the `"comments"` key by the normalizer, and read back by
`calculate_sprint_metrics`).  The `memberCreator` payload is never read
by the analysed code and is omitted. -/
structure TrelloComment where
  id : String
  text : String
  date : String
deriving DecidableEq

/-- One entry of the raw `actions` list of a card; for `commentCard` actions
the code reads `action["id"]`, `action["data"]["text"]`, `action["date"]`. -/
structure TrelloAction where
  type : String
  id : String
  text : String
  date : String
deriving DecidableEq

/-- A processed member reference `{"id": ..., "name": ...}` as produced by
`_process_card`. -/
structure MemberRef where
  id : String
  name : String
deriving DecidableEq

/-- A card dictionary.  Every field the analysed code ever reads with
`card.get(...)` (or tests with `"key" in card`) is present, `Option`-valued:
`none` models "key absent, or present with a falsy/`None` value that
`.get` defaults away".  Raw Trello cards populate `idMembers`/`actions`;
cards produced by `_process_card` populate `listName`/`members`/
`comments`/`isComplete`/`isBlocker`/`blockerReason` instead. -/
structure CardDict where
  id : Option String := none
  name : Option String := none
  desc : Option String := none
  url : Option String := none
  idList : Option String := none
  listName : Option String := none
  due : Option (Option Int) := none
  dueComplete : Option Bool := none
  dateLastActivity : Option String := none
  labels : Option (List TrelloLabel) := none
  idMembers : Option (List String) := none
  members : Option (List MemberRef) := none
  comments : Option (List TrelloComment) := none
  actions : Option (List TrelloAction) := none
  attachments : Option (List String) := none
  isComplete : Option Bool := none
  isBlocker : Option Bool := none
  blockerReason : Option (Option String) := none
deriving DecidableEq

/-- A board list record; `list_data["id"]` and `list_data["name"]` are
indexed directly (never `.get`), `pos` is read with `.get("pos", 0)`. -/
structure TrelloList where
  id : String
  name : String
  pos : Option Int := none
deriving DecidableEq

/-- A member record; `member["id"]` is indexed directly,
`fullName`/`username` are read with `.get`. -/
structure TrelloMember where
  id : String
  fullName : Option String := none
  username : Option String := none
deriving DecidableEq

/-- `member.get("fullName", member.get("username", "Unknown"))`. -/
def memberDisplayName (m : TrelloMember) : String :=
  m.fullName.getD (m.username.getD "Unknown")

/-! ### `calculate_sprint_metrics` (src/utils/data_utils.py) -/

/-- `list_map = {l["id"]: l["name"] for l in lists}`. -/
def metricsListMap (lists : List TrelloList) : List (String × String) :=
  lists.foldl (fun m l => alSet m l.id l.name) []

/-- Zero-initialisation loop: `cards_by_list[l["name"]] = 0`. -/
def metricsZeroInit (lists : List TrelloList) : List (String × Nat) :=
  lists.foldl (fun m l => alSet m l.name 0) []

/-- The per-card counting loop, guarded by
`if list_id and list_id in list_map`. -/
def metricsCount (lm : List (String × String)) (init : List (String × Nat))
    (cards : List CardDict) : List (String × Nat) :=
  cards.foldl (fun m c =>
    match c.idList with
    | some lid =>
        if lid ≠ "" then
          match alGet lm lid with
          | some lname => alSet m lname ((alGet m lname).getD 0 + 1)
          | none => m
        else m
    | none => m) init

/-- `cards_by_list` as computed by `calculate_sprint_metrics`. -/
def metricsCardsByList (cards : List CardDict) (lists : List TrelloList) :
    List (String × Nat) :=
  metricsCount (metricsListMap lists) (metricsZeroInit lists) cards

/-- `completion_rate = completed / total * 100 if total > 0 else 0`,
with `completed = cards_by_list.get("Done", 0)`. -/
def metricsCompletionRate (cards : List CardDict) (lists : List TrelloList) : ℚ :=
  let total := cards.length
  let completed := (alGet (metricsCardsByList cards lists) "Done").getD 0
  if total > 0 then ((completed : ℚ) / (total : ℚ)) * 100 else 0

/-- The blocker test of `calculate_sprint_metrics`: red label first,
comments (under the already-normalized `"comments"` key) second. -/
def metricsIsBlocker (c : CardDict) : Bool :=
  if (c.labels.getD []).any (fun l => l.color == some "red") then
    true
  else
    (c.comments.getD []).any (fun cm => strContainsBlocker cm.text)

/-- `list_map.get(card.get("idList"), "Unknown")` — note: no truthiness
guard here, unlike the counting loop. -/
def lookupListName (lm : List (String × String)) (c : CardDict) : String :=
  match c.idList with
  | some lid => (alGet lm lid).getD "Unknown"
  | none => "Unknown"

/-- A blocker entry appended by `calculate_sprint_metrics`. -/
structure BlockerEntry where
  id : Option String
  name : Option String
  url : Option String
  list : String
deriving DecidableEq

def metricsBlockers (cards : List CardDict) (lists : List TrelloList) :
    List BlockerEntry :=
  let lm := metricsListMap lists
  cards.filterMap (fun c =>
    if metricsIsBlocker c then
      some ⟨c.id, c.name, c.url, lookupListName lm c⟩
    else none)

/-- An approaching-deadline / overdue entry: `due` holds the raw due
string, modelled by its parse. -/
structure DueEntry where
  id : Option String
  name : Option String
  due : Option Int
  list : String
deriving DecidableEq

/-- `now < due <= now + 3 days and not card.get("dueComplete", False)`;
an absent/falsy due field or a parse failure skips the card. -/
def apprCheck (now : Int) (c : CardDict) : Bool :=
  match c.due with
  | some (some d) =>
      decide (now < d) && decide (d ≤ now + threeDays) && !(c.dueComplete.getD false)
  | _ => false

/-- `due < now and not card.get("dueComplete", False)`, same skip policy. -/
def overdueCheck (now : Int) (c : CardDict) : Bool :=
  match c.due with
  | some (some d) => decide (d < now) && !(c.dueComplete.getD false)
  | _ => false

def dueEntryOf (lm : List (String × String)) (c : CardDict) : DueEntry :=
  ⟨c.id, c.name, c.due.getD none, lookupListName lm c⟩

def metricsApproaching (now : Int) (cards : List CardDict)
    (lists : List TrelloList) : List DueEntry :=
  let lm := metricsListMap lists
  cards.filterMap (fun c => if apprCheck now c then some (dueEntryOf lm c) else none)

def metricsOverdue (now : Int) (cards : List CardDict)
    (lists : List TrelloList) : List DueEntry :=
  let lm := metricsListMap lists
  cards.filterMap (fun c => if overdueCheck now c then some (dueEntryOf lm c) else none)

/-- The dictionary returned by `calculate_sprint_metrics`.  The
`except`-branch of the source is unreachable in the embedding (all
operations are total here), so no `error` field appears. -/
structure SprintMetrics where
  total_cards : Nat
  cards_by_list : List (String × Nat)
  completion_rate : ℚ
  blockers : List BlockerEntry
  approaching_deadlines : List DueEntry
  overdue_cards : List DueEntry
  blockers_count : Nat
  approaching_deadlines_count : Nat
  overdue_count : Nat
deriving DecidableEq

/-- `calculate_sprint_metrics(cards, lists)`; `now` is the single
`datetime.now()` reading of the call. -/
def calculateSprintMetrics (cards : List CardDict) (lists : List TrelloList)
    (now : Int) : SprintMetrics :=
  { total_cards := cards.length
    cards_by_list := metricsCardsByList cards lists
    completion_rate := metricsCompletionRate cards lists
    blockers := metricsBlockers cards lists
    approaching_deadlines := metricsApproaching now cards lists
    overdue_cards := metricsOverdue now cards lists
    blockers_count := (metricsBlockers cards lists).length
    approaching_deadlines_count := (metricsApproaching now cards lists).length
    overdue_count := (metricsOverdue now cards lists).length }

/-! ### `AnalysisAgent._calculate_burn_down` (src/agents/analysis_agent.py) -/

/-- `projected_completion` is either a number or the literal string
`"Cannot estimate"`; the union is modelled by this inductive, with
`cannotEstimate` standing for the string. -/
inductive ProjectedCompletion where
  | estimate : ℚ → ProjectedCompletion
  | cannotEstimate : ProjectedCompletion
deriving DecidableEq

structure BurnDownPoint where
  day : Nat
  value : ℚ
deriving DecidableEq

structure BurnDown where
  total_points : Nat
  completed_points : Nat
  remaining_points : Nat
  ideal_burn_down : List BurnDownPoint
  actual_burn_down : List BurnDownPoint
  projected_completion : ProjectedCompletion
deriving DecidableEq

/-- `_calculate_burn_down(cards, lists)`; the `lists` argument is unused
in the source body as well. -/
def calculateBurnDown (cards : List CardDict) (lists : List TrelloList) :
    BurnDown :=
  let _ := lists
  let total_points := cards.length
  let completed_points := cards.countP (fun c => c.isComplete.getD false)
  let remaining_points := total_points - completed_points
  let ideal := (List.range 11).map (fun day =>
    BurnDownPoint.mk day ((total_points : ℚ) - (total_points : ℚ) * (day : ℚ) / 10))
  let completion_rate : ℚ :=
    if total_points > 0 then (completed_points : ℚ) / (total_points : ℚ) else 0
  let estimated_day : Nat := 5
  let actual := (List.range (estimated_day + 1)).map (fun day =>
    BurnDownPoint.mk day
      ((total_points : ℚ) - (completed_points : ℚ) * (day : ℚ) / (estimated_day : ℚ)))
  { total_points := total_points
    completed_points := completed_points
    remaining_points := remaining_points
    ideal_burn_down := ideal
    actual_burn_down := actual
    projected_completion :=
      if completion_rate > 0 then
        .estimate ((remaining_points : ℚ) / completion_rate)
      else .cannotEstimate }

/-! ### `analyze_team_performance` (src/utils/data_utils.py) -/

/-- A card summary appended to the `cards` list of a member. -/
structure MemberCardEntry where
  id : Option String
  name : Option String
  due : Option (Option Int)
  listName : String
deriving DecidableEq

/-- Per-member accumulator before the completion-rate pass. -/
structure MemberStats where
  total : Nat
  completed : Nat
  overdue : Nat
  cards : List MemberCardEntry
deriving DecidableEq

/-- Per-member statistics after the completion-rate pass. -/
structure MemberStatsR where
  total : Nat
  completed : Nat
  overdue : Nat
  cards : List MemberCardEntry
  completion_rate : ℚ
deriving DecidableEq

/-- `member_map = {m["id"]: m.get("fullName", m.get("username", "Unknown"))}`. -/
def memberMapOf (members : List TrelloMember) : List (String × String) :=
  members.foldl (fun acc m => alSet acc m.id (memberDisplayName m)) []

/-- The body of the per-card loop of `analyze_team_performance`: for each
id in `card.get("idMembers", [])`, create/update the bucket of that member. -/
def tpStep (mm : List (String × String)) (now : Int)
    (acc : List (String × MemberStats)) (c : CardDict) :
    List (String × MemberStats) :=
  (c.idMembers.getD []).foldl (fun acc mid =>
    let mname := (alGet mm mid).getD "Unknown"
    let s := (alGet acc mname).getD ⟨0, 0, 0, []⟩
    let entry : MemberCardEntry := ⟨c.id, c.name, c.due, c.listName.getD "Unknown"⟩
    let s : MemberStats :=
      { s with total := s.total + 1, cards := s.cards ++ [entry] }
    let s : MemberStats :=
      if c.listName == some "Done" then { s with completed := s.completed + 1 } else s
    let s : MemberStats :=
      match c.due with
      | some (some d) =>
          if d < now ∧ c.dueComplete.getD false = false then
            { s with overdue := s.overdue + 1 }
          else s
      | _ => s
    alSet acc mname s) acc

/-- The completion-rate pass:
`stats["completion_rate"] = completed/total*100 if total > 0 else 0`. -/
def addRate (p : String × MemberStats) : String × MemberStatsR :=
  (p.1,
    { total := p.2.total, completed := p.2.completed, overdue := p.2.overdue
      cards := p.2.cards
      completion_rate :=
        if p.2.total > 0 then ((p.2.completed : ℚ) / (p.2.total : ℚ)) * 100 else 0 })

/-- `cards_by_member` as returned by `analyze_team_performance`. -/
def tpCardsByMember (cards : List CardDict) (members : List TrelloMember)
    (now : Int) : List (String × MemberStatsR) :=
  (cards.foldl (tpStep (memberMapOf members) now) []).map addRate

/-- `avg_assignments = total / len(cards_by_member) if cards_by_member else 0`. -/
def tpAvg (cards : List CardDict) (members : List TrelloMember) (now : Int) : ℚ :=
  let cbm := tpCardsByMember cards members now
  if cbm.isEmpty then 0
  else ((cbm.map (fun p => p.2.total)).sum : ℚ) / (cbm.length : ℚ)

structure HighWorkloadEntry where
  name : String
  cards_count : Nat
  avg_ratio : ℚ
deriving DecidableEq

/-- The high-workload loop: flag members with
`stats["total"] > avg_assignments * 1.5` (strict). -/
def tpHighWorkload (cards : List CardDict) (members : List TrelloMember)
    (now : Int) : List HighWorkloadEntry :=
  let avg := tpAvg cards members now
  (tpCardsByMember cards members now).filterMap (fun p =>
    if (p.2.total : ℚ) > avg * (3 / 2) then
      some ⟨p.1, p.2.total, if avg > 0 then (p.2.total : ℚ) / avg else 0⟩
    else none)

/-- Result of `analyze_team_performance`; as with the metrics, the
`except`-branch is unreachable in the total embedding. -/
structure TeamPerformance where
  cards_by_member : List (String × MemberStatsR)
  avg_cards_per_member : ℚ
  members_with_high_workload : List HighWorkloadEntry
  member_count : Nat
deriving DecidableEq

/-- `analyze_team_performance(cards, members)`; the inline
`datetime.now()` readings of the source are the parameter `now`. -/
def analyzeTeamPerformance (cards : List CardDict) (members : List TrelloMember)
    (now : Int) : TeamPerformance :=
  { cards_by_member := tpCardsByMember cards members now
    avg_cards_per_member := tpAvg cards members now
    members_with_high_workload := tpHighWorkload cards members now
    member_count := (tpCardsByMember cards members now).length }

/-! ### `identify_process_bottlenecks` (src/utils/data_utils.py) -/

/-- `list_map = {l["id"]: {"name": l["name"], "pos": l.get("pos", 0)}}`;
only the names matter downstream.  The `sorted_lists`/`list_order`
locals of the source are dead code (never used after assignment) and are
not modelled. -/
def pbListMap (lists : List TrelloList) : List (String × String) :=
  lists.foldl (fun m l => alSet m l.id l.name) []

/-- Zero-initialisation over `list_map.items()` (dict iteration order:
first occurrence of each id, last written name). -/
def pbZeroInit (lists : List TrelloList) : List (String × Nat) :=
  (pbListMap lists).foldl (fun m p => alSet m p.2 0) []

/-- `cards_by_list` of `identify_process_bottlenecks`. -/
def pbCardsByList (cards : List CardDict) (lists : List TrelloList) :
    List (String × Nat) :=
  metricsCount (pbListMap lists) (pbZeroInit lists) cards

/-- `avg = sum(counts) / len(cards_by_list) if cards_by_list else 0`. -/
def pbAvg (cards : List CardDict) (lists : List TrelloList) : ℚ :=
  let cbl := pbCardsByList cards lists
  if cbl.isEmpty then 0
  else ((cbl.map (fun p => p.2)).sum : ℚ) / (cbl.length : ℚ)

structure BottleneckEntry where
  list_name : String
  card_count : Nat
  ratio_to_avg : ℚ
deriving DecidableEq

/-- The bottleneck loop: flag lists with `count > avg * 1.5` (strict). -/
def pbBottlenecks (cards : List CardDict) (lists : List TrelloList) :
    List BottleneckEntry :=
  let avg := pbAvg cards lists
  (pbCardsByList cards lists).filterMap (fun p =>
    if (p.2 : ℚ) > avg * (3 / 2) then
      some ⟨p.1, p.2, if avg > 0 then (p.2 : ℚ) / avg else 0⟩
    else none)

structure BottleneckResult where
  cards_by_list : List (String × Nat)
  avg_cards_per_list : ℚ
  bottlenecks : List BottleneckEntry
deriving DecidableEq

/-- `identify_process_bottlenecks(cards, lists)`. -/
def identifyProcessBottlenecks (cards : List CardDict)
    (lists : List TrelloList) : BottleneckResult :=
  { cards_by_list := pbCardsByList cards lists
    avg_cards_per_list := pbAvg cards lists
    bottlenecks := pbBottlenecks cards lists }

/-! ### `DataCollectionAgent._process_card` / `process_trello_data`
(src/agents/data_collection_agent.py) -/

/-- Comment extraction: `if "actions" in card: ... if action["type"] ==
"commentCard"`. -/
def extractComments (c : CardDict) : List TrelloComment :=
  match c.actions with
  | some acts =>
      acts.filterMap (fun a =>
        if a.type == "commentCard" then some ⟨a.id, a.text, a.date⟩ else none)
  | none => []

/-- The red-label scan (first match wins). -/
def redLabelOf (c : CardDict) : Option TrelloLabel :=
  (c.labels.getD []).find? (fun l => l.color == some "red")

/-- The comment scan (first comment whose lowercased text contains
`"blocker"`). -/
def blockerCommentOf (comments : List TrelloComment) : Option TrelloComment :=
  comments.find? (fun cm => strContainsBlocker cm.text)

/-- `_process_card(card, list_map, member_map)`.  The returned dictionary
has a `"members"` key but no `"idMembers"` key, which is why
`idMembers := none` below. -/
def processCard (c : CardDict) (lm : List (String × TrelloList))
    (mm : List (String × TrelloMember)) : CardDict :=
  let list_name : String :=
    match c.idList with
    | some lid =>
        if lid ≠ "" then
          match alGet lm lid with
          | some l => l.name
          | none => "Unknown"
        else "Unknown"
    | none => "Unknown"
  let mems : List MemberRef :=
    (c.idMembers.getD []).filterMap (fun mid =>
      (alGet mm mid).map (fun m => MemberRef.mk mid (memberDisplayName m)))
  let comments := extractComments c
  let blocker : Bool × Option String :=
    match redLabelOf c with
    | some l => (true, some ("Red label: " ++ l.name.getD "Blocker"))
    | none =>
        match blockerCommentOf comments with
        | some cm =>
            (true, some ("Blocker mentioned in comment: " ++ strTake 50 cm.text ++ "..."))
        | none => (false, none)
  { id := c.id
    name := c.name
    desc := c.desc
    url := c.url
    idList := c.idList
    listName := some list_name
    due := c.due
    dueComplete := some (c.dueComplete.getD false)
    dateLastActivity := c.dateLastActivity
    labels := some (c.labels.getD [])
    idMembers := none
    members := some mems
    comments := some comments
    actions := c.actions
    attachments := some (c.attachments.getD [])
    isComplete := some (list_name == "Done")
    isBlocker := some blocker.1
    blockerReason := some blocker.2 }

/-- Stable insertion of a list record by `l.get("pos", 0)`. -/
def insertByPos (x : TrelloList) : List TrelloList → List TrelloList
  | [] => [x]
  | y :: ys =>
      if x.pos.getD 0 ≤ y.pos.getD 0 then x :: y :: ys else y :: insertByPos x ys

/-- `sorted(lists, key=lambda x: x.get("pos", 0))` — a stable sort by
position (insertion sort; placement before strictly greater keys keeps
the original order of equal keys). -/
def sortByPos : List TrelloList → List TrelloList
  | [] => []
  | x :: xs => insertByPos x (sortByPos xs)

/-- The raw board snapshot handed to `process_trello_data`. -/
structure BoardData where
  error : Option String := none
  board_id : Option String := none
  cards : List CardDict := []
  lists : List TrelloList := []
  members : List TrelloMember := []
  timestamp : Option String := none
deriving DecidableEq

/-- The structured snapshot returned on success. -/
structure ProcessedBoard where
  board_id : Option String
  cards : List CardDict
  lists : List TrelloList
  members : List TrelloMember
  cards_by_list : List (String × List CardDict)
  timestamp : Option String
deriving DecidableEq

/-- `process_trello_data` returns either `{"error": msg}` (sole key) or
the structured snapshot; the union is this inductive. -/
inductive ProcessOutcome where
  | err : String → ProcessOutcome
  | ok : ProcessedBoard → ProcessOutcome
deriving DecidableEq

def ProcessOutcome.res : ProcessOutcome → Option ProcessedBoard
  | .err _ => none
  | .ok r => some r

/-- `process_trello_data(board_data)`. -/
def processTrelloData (bd : BoardData) : ProcessOutcome :=
  match bd.error with
  | some msg => .err msg
  | none =>
      let lm := bd.lists.foldl (fun m l => alSet m l.id l) []
      let mm := bd.members.foldl (fun m x => alSet m x.id x) []
      let processed := bd.cards.map (fun c => processCard c lm mm)
      let cbl0 := bd.lists.foldl
        (fun m l => alSet m l.name ([] : List CardDict)) []
      let cbl := processed.foldl (fun m c =>
        let ln := c.listName.getD "Unknown"
        match alGet m ln with
        | some cs => alSet m ln (cs ++ [c])
        | none => m) cbl0
      let sorted_lists := sortByPos bd.lists
      .ok { board_id := bd.board_id
            cards := processed
            lists := sorted_lists
            members := bd.members
            cards_by_list := cbl
            timestamp := bd.timestamp }

/-! ### `AnalysisAgent._calculate_velocity` -/

structure VelocityCurrent where
  total_points : Nat
  completed_points : Nat
  completion_percentage : ℚ
deriving DecidableEq

structure HistoricalEntry where
  sprint : String
  completed_points : Int
deriving DecidableEq

structure Velocity where
  current_sprint : VelocityCurrent
  historical : List HistoricalEntry
deriving DecidableEq

/-- `_calculate_velocity(cards)`: current totals plus three synthetic
placeholder entries (deltas −2, −5, −3; Python ints may go negative). -/
def calculateVelocity (cards : List CardDict) : Velocity :=
  let total := cards.length
  let completed := cards.countP (fun c => c.isComplete.getD false)
  { current_sprint :=
      { total_points := total
        completed_points := completed
        completion_percentage :=
          if total > 0 then ((completed : ℚ) / (total : ℚ)) * 100 else 0 }
    historical :=
      [ ⟨"Sprint -1", (completed : Int) - 2⟩
      , ⟨"Sprint -2", (completed : Int) - 5⟩
      , ⟨"Sprint -3", (completed : Int) - 3⟩ ] }

/-! ### `AnalysisAgent._identify_risks` / `_generate_recommendations` -/

/-- The fixed enumeration of risk categories the engine can emit (the
source uses the corresponding string literals). -/
inductive RiskCat where
  | completion_rate
  | blockers
  | approaching_deadlines
  | overdue
  | workload_imbalance
  | process_bottlenecks
deriving DecidableEq

inductive Severity where
  | high
  | medium
deriving DecidableEq

inductive RecPriority where
  | high
  | medium
  | low
deriving DecidableEq

/-- A risk entry.  The `description`/`impact` strings of the source are
fixed presentation text interpolating the same counts; no claim touches
them, so they are not carried. -/
structure Risk where
  category : RiskCat
  severity : Severity
deriving DecidableEq

/-- A recommendation.  `category` keeps the string literal of the source
(`"deadlines"`, `"workload"`, `"process"`, ...); the fixed
`description`/`action_items` text is not carried. -/
structure Recommendation where
  category : String
  priority : RecPriority
deriving DecidableEq

/-- `_identify_risks(cards, sprint_metrics, team_performance,
process_bottlenecks)`; the `cards` argument is unused in the source body
as well.  Rules evaluated independently, in source order. -/
def identifyRisks (cards : List CardDict) (m : SprintMetrics)
    (tp : TeamPerformance) (pb : BottleneckResult) : List Risk :=
  let _ := cards
  (if m.completion_rate < 70 then
    [⟨.completion_rate, if m.completion_rate < 50 then .high else .medium⟩]
   else [])
  ++ (if m.blockers.isEmpty then []
      else [⟨.blockers, if m.blockers.length > 2 then .high else .medium⟩])
  ++ (if m.approaching_deadlines.isEmpty then []
      else [⟨.approaching_deadlines, .medium⟩])
  ++ (if m.overdue_cards.isEmpty then []
      else [⟨.overdue, if m.overdue_cards.length > 3 then .high else .medium⟩])
  ++ (if tp.members_with_high_workload.isEmpty then []
      else [⟨.workload_imbalance, .medium⟩])
  ++ (if pb.bottlenecks.isEmpty then []
      else [⟨.process_bottlenecks,
             if pb.bottlenecks.any (fun b => decide (b.ratio_to_avg > 2))
             then .high else .medium⟩])

/-- The recommendation category each risk category collapses to
(`approaching_deadlines` and `overdue` both map to `"deadlines"`). -/
def recCategory : RiskCat → String
  | .completion_rate => "completion_rate"
  | .blockers => "blockers"
  | .approaching_deadlines => "deadlines"
  | .overdue => "deadlines"
  | .workload_imbalance => "workload"
  | .process_bottlenecks => "process"

/-- `_generate_recommendations(risks, ...)`: one recommendation per
present risk category (the two deadline categories share one), plus a
low-priority fallback when none were generated.  The extra arguments of
the source are unused in its body as well. -/
def recSlots (cats : List RiskCat) : List Recommendation :=
  (if RiskCat.completion_rate ∈ cats then
    [⟨"completion_rate", RecPriority.high⟩] else [])
  ++ (if RiskCat.blockers ∈ cats then
      [⟨"blockers", RecPriority.high⟩] else [])
  ++ (if RiskCat.approaching_deadlines ∈ cats ∨ RiskCat.overdue ∈ cats then
      [⟨"deadlines", RecPriority.high⟩] else [])
  ++ (if RiskCat.workload_imbalance ∈ cats then
      [⟨"workload", RecPriority.medium⟩] else [])
  ++ (if RiskCat.process_bottlenecks ∈ cats then
      [⟨"process", RecPriority.medium⟩] else [])

def generateRecommendations (risks : List Risk) (m : SprintMetrics)
    (tp : TeamPerformance) (pb : BottleneckResult) : List Recommendation :=
  let _ := m
  let _ := tp
  let _ := pb
  let recs := recSlots (risks.map (fun r => r.category))
  if recs.isEmpty then [⟨"general", RecPriority.low⟩] else recs

/-! ### `AnalysisAgent.analyze_sprint_data` -/

/-- The processed snapshot dictionary as read by `analyze_sprint_data`
(`cards`/`lists`/`members` via `.get(..., [])`, plus the `error` key). -/
structure SnapshotDict where
  error : Option String := none
  cards : List CardDict := []
  lists : List TrelloList := []
  members : List TrelloMember := []
deriving DecidableEq

/-- The analysis-results dictionary.  `timestamp` is the
`datetime.now().isoformat()` reading, modelled by the clock value;
`sprint_end_date` and `days_remaining` are always `None` in the source. -/
structure AnalysisResult where
  timestamp : Int
  sprint_metrics : SprintMetrics
  team_performance : TeamPerformance
  process_bottlenecks : BottleneckResult
  burn_down : BurnDown
  velocity : Velocity
  risks : List Risk
  recommendations : List Recommendation
  sprint_end_date : Option String
  days_remaining : Option Int
deriving DecidableEq

inductive AnalysisOutcome where
  | err : String → AnalysisOutcome
  | ok : AnalysisResult → AnalysisOutcome
deriving DecidableEq

def AnalysisOutcome.res : AnalysisOutcome → Option AnalysisResult
  | .err _ => none
  | .ok r => some r

/-- `analyze_sprint_data(processed_data)`; `now` is the clock during the
call (the source reads `datetime.now()` inside the computation). -/
def analyzeSprintData (d : SnapshotDict) (now : Int) : AnalysisOutcome :=
  match d.error with
  | some msg => .err msg
  | none =>
      let sprint_metrics := calculateSprintMetrics d.cards d.lists now
      let team_performance := analyzeTeamPerformance d.cards d.members now
      let process_bottlenecks := identifyProcessBottlenecks d.cards d.lists
      let burn_down := calculateBurnDown d.cards d.lists
      let velocity := calculateVelocity d.cards
      let risks := identifyRisks d.cards sprint_metrics team_performance
        process_bottlenecks
      let recommendations := generateRecommendations risks sprint_metrics
        team_performance process_bottlenecks
      .ok { timestamp := now
            sprint_metrics := sprint_metrics
            team_performance := team_performance
            process_bottlenecks := process_bottlenecks
            burn_down := burn_down
            velocity := velocity
            risks := risks
            recommendations := recommendations
            sprint_end_date := none
            days_remaining := none }

/-- C1: for every input snapshot whose card list is empty
(`total_cards == 0`), `calculate_sprint_metrics` returns
`completion_rate == 0` and `_calculate_burn_down` returns
`projected_completion` equal to the string `"Cannot estimate"`. -/
theorem c1_empty_snapshot (lists : List TrelloList) (now : Int) :
    (calculateSprintMetrics [] lists now).total_cards = 0 ∧
    (calculateSprintMetrics [] lists now).completion_rate = 0 ∧
    (calculateBurnDown [] lists).projected_completion =
      ProjectedCompletion.cannotEstimate := by
  refine ⟨rfl, ?_, rfl⟩
  simp [calculateSprintMetrics, metricsCompletionRate]

/-! ### C2 — blocker detection of the normalizer -/

/-- C2: in `_process_card`, a red label always makes the card a blocker
with reason `"Red label: <name or Blocker>"` (short-circuiting, so the
comments are irrelevant); otherwise the first extracted comment whose
lowercased text contains `"blocker"` makes it a blocker with reason
`"Blocker mentioned in comment: "` + first 50 characters + `"..."`;
otherwise the card is not a blocker. -/
theorem c2_blocker_rules (c : CardDict) (lm : List (String × TrelloList))
    (mm : List (String × TrelloMember)) :
    ((c.labels.getD []).any (fun l => l.color == some "red") = true →
      (processCard c lm mm).isBlocker = some true ∧
      ∃ l, redLabelOf c = some l ∧ l.color = some "red" ∧
        (processCard c lm mm).blockerReason =
          some (some ("Red label: " ++ l.name.getD "Blocker"))) ∧
    ((c.labels.getD []).any (fun l => l.color == some "red") = false →
      (extractComments c).any (fun cm => strContainsBlocker cm.text) = true →
      (processCard c lm mm).isBlocker = some true ∧
      ∃ cm, blockerCommentOf (extractComments c) = some cm ∧
        strContainsBlocker cm.text = true ∧
        (processCard c lm mm).blockerReason =
          some (some ("Blocker mentioned in comment: " ++ strTake 50 cm.text ++ "..."))) ∧
    ((c.labels.getD []).any (fun l => l.color == some "red") = false →
      (extractComments c).any (fun cm => strContainsBlocker cm.text) = false →
      (processCard c lm mm).isBlocker = some false ∧
      (processCard c lm mm).blockerReason = some none) := by
  refine ⟨?_, ?_, ?_⟩
  · intro h
    have hs : ((c.labels.getD []).find?
        (fun l => l.color == some "red")).isSome := by
      rw [List.find?_isSome]
      simpa using List.any_eq_true.mp h
    obtain ⟨l, hl⟩ := Option.isSome_iff_exists.mp hs
    have hl2 : redLabelOf c = some l := hl
    have hred : l.color = some "red" := by
      have := List.find?_some hl
      simpa using this
    refine ⟨?_, l, hl2, hred, ?_⟩ <;> simp [processCard, hl2]
  · intro h1 h2
    have hnone : redLabelOf c = none := by
      rw [redLabelOf, List.find?_eq_none]
      intro x hx
      simpa using List.any_eq_false.mp h1 x hx
    have hs : ((extractComments c).find?
        (fun cm => strContainsBlocker cm.text)).isSome := by
      rw [List.find?_isSome]
      simpa using List.any_eq_true.mp h2
    obtain ⟨cm, hcm⟩ := Option.isSome_iff_exists.mp hs
    have hcm2 : blockerCommentOf (extractComments c) = some cm := hcm
    have hcmP : strContainsBlocker cm.text = true := by
      have := List.find?_some hcm
      simpa using this
    refine ⟨?_, cm, hcm2, hcmP, ?_⟩ <;> simp [processCard, hnone, hcm2]
  · intro h1 h2
    have hnone : redLabelOf c = none := by
      rw [redLabelOf, List.find?_eq_none]
      intro x hx
      simpa using List.any_eq_false.mp h1 x hx
    have hnone2 : blockerCommentOf (extractComments c) = none := by
      rw [blockerCommentOf, List.find?_eq_none]
      intro x hx
      simpa using List.any_eq_false.mp h2 x hx
    constructor <;> simp [processCard, hnone, hnone2]

/-- A card with a red (unnamed) label and an innocuous comment. -/
def c2RedCard : CardDict :=
  { labels := some [⟨some "red", none⟩]
    actions := some [⟨"commentCard", "a1", "all good", "d1"⟩] }

theorem c2_blocker_rules_witness :
    (processCard c2RedCard [] []).isBlocker = some true ∧
    (processCard c2RedCard [] []).blockerReason =
      some (some "Red label: Blocker") := by
  obtain ⟨hb, l, hl, _, hr⟩ := (c2_blocker_rules c2RedCard [] []).1 (by decide)
  have hle : l = ⟨some "red", none⟩ := by
    have h0 : redLabelOf c2RedCard = some ⟨some "red", none⟩ := by decide
    exact (Option.some.inj (h0.symm.trans hl)).symm
  subst hle
  exact ⟨hb, hr⟩

/-! ### C4 — error propagation -/

/-- C4: if the input snapshot carries an error indicator,
`analyze_sprint_data` (resp. `process_trello_data`) returns exactly the
error object with the message of the input — no analysis is performed. -/
theorem c4_error_propagation (d : SnapshotDict) (bd : BoardData) (now : Int)
    (msgA msgB : String) :
    (d.error = some msgA → analyzeSprintData d now = .err msgA) ∧
    (bd.error = some msgB → processTrelloData bd = .err msgB) := by
  constructor
  · intro h
    simp [analyzeSprintData, h]
  · intro h
    simp [processTrelloData, h]

def c4Snap : SnapshotDict := { error := some "boom" }

def c4Board : BoardData := { error := some "bad data" }

theorem c4_error_propagation_witness :
    analyzeSprintData c4Snap 0 = .err "boom" ∧
    processTrelloData c4Board = .err "bad data" :=
  ⟨(c4_error_propagation c4Snap c4Board 0 "boom" "bad data").1 rfl,
   (c4_error_propagation c4Snap c4Board 0 "boom" "bad data").2 rfl⟩

/-! ### C8 — determinism relative to snapshot and clock -/

def c8Card : CardDict := { due := some (some 5) }

def c8Snap : SnapshotDict := { cards := [c8Card] }

/-- C8 counterexample: the analysis is NOT a function of the snapshot
alone — the source reads `datetime.now()`, and the same snapshot analysed
at clock 3 and at clock 10 yields different results (the card due at 5 is
overdue only in the second run, and the `timestamp` field differs). -/
theorem c8_not_function_of_snapshot_alone :
    calculateSprintMetrics [c8Card] [] 3 ≠ calculateSprintMetrics [c8Card] [] 10 ∧
    analyzeSprintData c8Snap 3 ≠ analyzeSprintData c8Snap 10 := by
  constructor
  · intro h
    have h2 := congrArg SprintMetrics.overdue_cards h
    revert h2
    decide
  · intro h
    have h2 := congrArg (fun r => r.res.map (fun x => x.timestamp)) h
    revert h2
    decide

/-- C8 (amended): each analysis run is a deterministic, side-effect-free
function of the input snapshot TOGETHER WITH the clock reading: two calls
with the same snapshot and the same `datetime.now()` value produce
identical results (the embedding is a total function, so this is
definitional determinism). -/
theorem c8_determinism (d1 d2 : SnapshotDict) (n1 n2 : Int)
    (hd : d1 = d2) (hn : n1 = n2) :
    analyzeSprintData d1 n1 = analyzeSprintData d2 n2 ∧
    calculateSprintMetrics d1.cards d1.lists n1 =
      calculateSprintMetrics d2.cards d2.lists n2 := by
  subst hd
  subst hn
  exact ⟨rfl, rfl⟩

theorem c8_determinism_witness :
    analyzeSprintData c8Snap 3 = analyzeSprintData c8Snap 3 ∧
    calculateSprintMetrics c8Snap.cards c8Snap.lists 3 =
      calculateSprintMetrics c8Snap.cards c8Snap.lists 3 :=
  c8_determinism c8Snap c8Snap 3 3 rfl rfl

/-! ### C10 — approaching and overdue lists are disjoint -/

theorem apprCheck_due {now : Int} {c : CardDict} (h : apprCheck now c = true) :
    ∃ d, c.due = some (some d) ∧ now < d ∧ d ≤ now + threeDays := by
  unfold apprCheck at h
  cases hd : c.due with
  | none => rw [hd] at h; cases h
  | some x =>
      cases x with
      | none => rw [hd] at h; cases h
      | some d =>
          rw [hd] at h
          simp only [Bool.and_eq_true, decide_eq_true_eq] at h
          exact ⟨d, rfl, h.1.1, h.1.2⟩

theorem overdueCheck_due {now : Int} {c : CardDict}
    (h : overdueCheck now c = true) :
    ∃ d, c.due = some (some d) ∧ d < now := by
  unfold overdueCheck at h
  cases hd : c.due with
  | none => rw [hd] at h; cases h
  | some x =>
      cases x with
      | none => rw [hd] at h; cases h
      | some d =>
          rw [hd] at h
          simp only [Bool.and_eq_true, decide_eq_true_eq] at h
          exact ⟨d, rfl, h.1⟩

/-- C10: within a single call of `calculate_sprint_metrics` (one fixed
reading of `now`), no card entry appears both in `approaching_deadlines`
and in `overdue_cards`: approaching requires `now < due`, overdue
requires `due < now`. -/
theorem c10_deadline_disjoint (cards : List CardDict) (lists : List TrelloList)
    (now : Int) (e : DueEntry)
    (h : e ∈ (calculateSprintMetrics cards lists now).approaching_deadlines) :
    e ∉ (calculateSprintMetrics cards lists now).overdue_cards := by
  intro hov
  have h1 : e ∈ metricsApproaching now cards lists := h
  have h2 : e ∈ metricsOverdue now cards lists := hov
  rw [metricsApproaching, List.mem_filterMap] at h1
  rw [metricsOverdue, List.mem_filterMap] at h2
  obtain ⟨a, _, hae⟩ := h1
  obtain ⟨b, _, hbe⟩ := h2
  by_cases hA : apprCheck now a = true
  · by_cases hB : overdueCheck now b = true
    · rw [if_pos hA] at hae
      rw [if_pos hB] at hbe
      obtain ⟨d, hda, hnd, _⟩ := apprCheck_due hA
      obtain ⟨d2, hdb, hdn⟩ := overdueCheck_due hB
      have he1 : e.due = some d := by
        rw [← Option.some.inj hae]
        simp [dueEntryOf, hda]
      have he2 : e.due = some d2 := by
        rw [← Option.some.inj hbe]
        simp [dueEntryOf, hdb]
      rw [he1] at he2
      have : d = d2 := Option.some.inj he2
      omega
    · rw [if_neg hB] at hbe
      cases hbe
  · rw [if_neg hA] at hae
    cases hae

def c10Card : CardDict := { due := some (some 1) }

def c10Entry : DueEntry := ⟨none, none, some 1, "Unknown"⟩

theorem c10_deadline_disjoint_witness :
    c10Entry ∉ (calculateSprintMetrics [c10Card] [] 0).overdue_cards :=
  c10_deadline_disjoint [c10Card] [] 0 c10Entry (by decide)

/-! ### C5 — high-workload detection boundary -/

/-- C5: `members_with_high_workload` is non-empty iff some referenced
member total strictly exceeds `1.5 ×` the average over referenced
members; every reported entry strictly exceeds the threshold, so a member
sitting exactly at `1.5 ×` average is never flagged. -/
theorem c5_high_workload (cards : List CardDict) (members : List TrelloMember)
    (now : Int) :
    ((analyzeTeamPerformance cards members now).members_with_high_workload ≠ [] ↔
      ∃ p ∈ (analyzeTeamPerformance cards members now).cards_by_member,
        (p.2.total : ℚ) >
          (analyzeTeamPerformance cards members now).avg_cards_per_member * (3 / 2)) ∧
    (∀ hw ∈ (analyzeTeamPerformance cards members now).members_with_high_workload,
      (hw.cards_count : ℚ) >
        (analyzeTeamPerformance cards members now).avg_cards_per_member * (3 / 2)) := by
  have e1 : (analyzeTeamPerformance cards members now).members_with_high_workload
      = tpHighWorkload cards members now := rfl
  have e2 : (analyzeTeamPerformance cards members now).cards_by_member
      = tpCardsByMember cards members now := rfl
  have e3 : (analyzeTeamPerformance cards members now).avg_cards_per_member
      = tpAvg cards members now := rfl
  rw [e1, e2, e3]
  simp only [tpHighWorkload]
  constructor
  · constructor
    · intro hne
      rw [Ne, List.filterMap_eq_nil_iff] at hne
      push_neg at hne
      obtain ⟨p, hp, hne2⟩ := hne
      refine ⟨p, hp, ?_⟩
      by_contra hle
      exact hne2 (if_neg hle)
    · rintro ⟨p, hp, hgt⟩ hnil
      rw [List.filterMap_eq_nil_iff] at hnil
      have h0 := hnil p hp
      rw [if_pos hgt] at h0
      cases h0
  · intro hw hmem
    rw [List.mem_filterMap] at hmem
    obtain ⟨p, hp, hsome⟩ := hmem
    by_cases hgt : (p.2.total : ℚ) > tpAvg cards members now * (3 / 2)
    · rw [if_pos hgt] at hsome
      have h0 := Option.some.inj hsome
      rw [← h0]
      exact hgt
    · rw [if_neg hgt] at hsome
      cases hsome

def c5Members : List TrelloMember :=
  [⟨"m1", some "Alice", none⟩, ⟨"m2", some "Bob", none⟩]

def c5Cards : List CardDict :=
  List.replicate 4 { idMembers := some ["m1"] } ++ [{ idMembers := some ["m2"] }]

theorem c5_high_workload_witness :
    (analyzeTeamPerformance c5Cards c5Members 0).members_with_high_workload ≠ [] := by
  refine (c5_high_workload c5Cards c5Members 0).1.mpr ?_
  have hfold : c5Cards.foldl (tpStep (memberMapOf c5Members) 0) []
      = [("Alice", ⟨4, 0, 0, List.replicate 4 ⟨none, none, none, "Unknown"⟩⟩),
         ("Bob", ⟨1, 0, 0, [⟨none, none, none, "Unknown"⟩]⟩)] := by decide
  have hcbm : (analyzeTeamPerformance c5Cards c5Members 0).cards_by_member
      = [("Alice", ⟨4, 0, 0, List.replicate 4 ⟨none, none, none, "Unknown"⟩, 0⟩),
         ("Bob", ⟨1, 0, 0, [⟨none, none, none, "Unknown"⟩], 0⟩)] := by
    show tpCardsByMember c5Cards c5Members 0 = _
    rw [tpCardsByMember, hfold]
    norm_num [addRate]
  have havg : (analyzeTeamPerformance c5Cards c5Members 0).avg_cards_per_member
      = 5 / 2 := by
    show tpAvg c5Cards c5Members 0 = 5 / 2
    rw [tpAvg]
    rw [show tpCardsByMember c5Cards c5Members 0 = _ from hcbm]
    norm_num
  rw [hcbm, havg]
  refine ⟨("Alice", ⟨4, 0, 0, List.replicate 4 ⟨none, none, none, "Unknown"⟩, 0⟩),
    by simp, by norm_num⟩

/-! ### C6 — bottleneck detection -/

def c6Lists : List TrelloList :=
  [⟨"l1", "Backlog", some 1⟩, ⟨"l2", "Doing", some 2⟩,
   ⟨"l3", "Review", some 3⟩, ⟨"l4", "Deploy", some 4⟩]

def c6Cards : List CardDict :=
  [{ idList := some "l1" }, { idList := some "l2" }, { idList := some "l3" }]
  ++ List.replicate 17 { idList := some "l4" }

/-- C6: a list is reported as a bottleneck iff its count strictly exceeds
`1.5 ×` the average (sum of per-list counts over the number of distinct
lists); concretely for counts `[1,1,1,17]` the average is `5`, only the
17-card list is flagged, and its `ratio_to_avg` is `3.4 = 17/5`. -/
theorem c6_bottlenecks (cards : List CardDict) (lists : List TrelloList) :
    (∀ b, b ∈ (identifyProcessBottlenecks cards lists).bottlenecks ↔
      ∃ p ∈ (identifyProcessBottlenecks cards lists).cards_by_list,
        (p.2 : ℚ) > (identifyProcessBottlenecks cards lists).avg_cards_per_list * (3 / 2) ∧
        b = ⟨p.1, p.2,
          if (identifyProcessBottlenecks cards lists).avg_cards_per_list > 0 then
            (p.2 : ℚ) / (identifyProcessBottlenecks cards lists).avg_cards_per_list
          else 0⟩) ∧
    (identifyProcessBottlenecks c6Cards c6Lists).avg_cards_per_list = 5 ∧
    (identifyProcessBottlenecks c6Cards c6Lists).bottlenecks =
      [⟨"Deploy", 17, 17 / 5⟩] := by
  have h1 : pbCardsByList c6Cards c6Lists
      = [("Backlog", 1), ("Doing", 1), ("Review", 1), ("Deploy", 17)] := by decide
  have havg : pbAvg c6Cards c6Lists = 5 := by
    rw [pbAvg, h1]
    norm_num
  refine ⟨?_, havg, ?_⟩
  · intro b
    have e1 : (identifyProcessBottlenecks cards lists).bottlenecks
        = pbBottlenecks cards lists := rfl
    have e2 : (identifyProcessBottlenecks cards lists).cards_by_list
        = pbCardsByList cards lists := rfl
    have e3 : (identifyProcessBottlenecks cards lists).avg_cards_per_list
        = pbAvg cards lists := rfl
    rw [e1, e2, e3]
    simp only [pbBottlenecks, List.mem_filterMap]
    constructor
    · rintro ⟨p, hp, hsome⟩
      by_cases hgt : (p.2 : ℚ) > pbAvg cards lists * (3 / 2)
      · rw [if_pos hgt] at hsome
        exact ⟨p, hp, hgt, (Option.some.inj hsome).symm⟩
      · rw [if_neg hgt] at hsome
        cases hsome
    · rintro ⟨p, hp, hgt, hb⟩
      exact ⟨p, hp, by rw [if_pos hgt, hb]⟩
  · show pbBottlenecks c6Cards c6Lists = _
    rw [pbBottlenecks, havg, h1]
    norm_num [List.filterMap_cons]

theorem c6_bottlenecks_witness :
    BottleneckEntry.mk "Deploy" 17 (17 / 5)
      ∈ (identifyProcessBottlenecks c6Cards c6Lists).bottlenecks := by
  have h := (c6_bottlenecks c6Cards c6Lists).2.2
  rw [show (identifyProcessBottlenecks c6Cards c6Lists).bottlenecks = _ from h]
  simp

/-! ### C7 — ten-card scenario with three done -/

def c7Lists : List TrelloList :=
  [⟨"l1", "To Do", some 1⟩, ⟨"l2", "Done", some 2⟩]

def c7Cards : List CardDict :=
  List.replicate 7 { idList := some "l1" } ++ List.replicate 3 { idList := some "l2" }

def c7Snap : SnapshotDict := { cards := c7Cards, lists := c7Lists }

/-- C7 (amended): for the two-list snapshot — lists `"To Do"` and
`"Done"` — of 10 cards of which exactly 3 are in `"Done"`, with no
labels, comments, members or due dates, analysis yields
`completion_rate == 30`, exactly the single risk
`(completion_rate, high)`, and exactly the single recommendation of
category `"completion_rate"`.  The claim as stated, universal over every
such snapshot, is false: extra empty lists turn `"To Do"` into a process
bottleneck and a second recommendation appears (see the counterexample
below). -/
theorem c7_scenario :
    (analyzeSprintData c7Snap 0).res.map
      (fun r => (r.sprint_metrics.completion_rate, r.risks, r.recommendations))
    = some (30, [⟨RiskCat.completion_rate, Severity.high⟩],
        [⟨"completion_rate", RecPriority.high⟩]) := by
  have hcbl : metricsCardsByList c7Cards c7Lists = [("To Do", 7), ("Done", 3)] := by
    decide
  have hdone : (alGet (metricsCardsByList c7Cards c7Lists) "Done").getD 0 = 3 := by
    rw [hcbl]
    decide
  have hlen : c7Cards.length = 10 := by decide
  have hrate : metricsCompletionRate c7Cards c7Lists = 30 := by
    rw [metricsCompletionRate, hdone, hlen]
    norm_num
  have hblk : metricsBlockers c7Cards c7Lists = [] := by decide
  have happ : metricsApproaching 0 c7Cards c7Lists = [] := by decide
  have hovr : metricsOverdue 0 c7Cards c7Lists = [] := by decide
  have hmwh : tpHighWorkload c7Cards [] 0 = [] := by decide
  have hpcbl : pbCardsByList c7Cards c7Lists = [("To Do", 7), ("Done", 3)] := by
    decide
  have hpavg : pbAvg c7Cards c7Lists = 5 := by
    rw [pbAvg, hpcbl]
    norm_num
  have hpbB : pbBottlenecks c7Cards c7Lists = [] := by
    rw [pbBottlenecks, hpavg, hpcbl]
    norm_num [List.filterMap_cons]
  have p1 : (calculateSprintMetrics c7Cards c7Lists 0).completion_rate = 30 := hrate
  have p2 : (calculateSprintMetrics c7Cards c7Lists 0).blockers = [] := hblk
  have p3 : (calculateSprintMetrics c7Cards c7Lists 0).approaching_deadlines = [] :=
    happ
  have p4 : (calculateSprintMetrics c7Cards c7Lists 0).overdue_cards = [] := hovr
  have p5 : (analyzeTeamPerformance c7Cards [] 0).members_with_high_workload = [] :=
    hmwh
  have p6 : (identifyProcessBottlenecks c7Cards c7Lists).bottlenecks = [] := hpbB
  have hrisks : identifyRisks c7Cards (calculateSprintMetrics c7Cards c7Lists 0)
      (analyzeTeamPerformance c7Cards [] 0) (identifyProcessBottlenecks c7Cards c7Lists)
      = [⟨RiskCat.completion_rate, Severity.high⟩] := by
    simp only [identifyRisks, p1, p2, p3, p4, p5, p6]
    norm_num
  have hrecs : generateRecommendations [⟨RiskCat.completion_rate, Severity.high⟩]
      (calculateSprintMetrics c7Cards c7Lists 0) (analyzeTeamPerformance c7Cards [] 0)
      (identifyProcessBottlenecks c7Cards c7Lists)
      = [⟨"completion_rate", RecPriority.high⟩] := by decide
  have hok : (analyzeSprintData c7Snap 0).res.map
      (fun r => (r.sprint_metrics.completion_rate, r.risks, r.recommendations))
      = some ((calculateSprintMetrics c7Cards c7Lists 0).completion_rate,
          identifyRisks c7Cards (calculateSprintMetrics c7Cards c7Lists 0)
            (analyzeTeamPerformance c7Cards [] 0)
            (identifyProcessBottlenecks c7Cards c7Lists),
          generateRecommendations
            (identifyRisks c7Cards (calculateSprintMetrics c7Cards c7Lists 0)
              (analyzeTeamPerformance c7Cards [] 0)
              (identifyProcessBottlenecks c7Cards c7Lists))
            (calculateSprintMetrics c7Cards c7Lists 0)
            (analyzeTeamPerformance c7Cards [] 0)
            (identifyProcessBottlenecks c7Cards c7Lists)) := rfl
  rw [hok, hrisks, hrecs, p1]

/-- The same 10 cards (7 in `"To Do"`, 3 in `"Done"`, no labels, comments,
members or due dates) on a board that also has two empty lists. -/
def c7cLists : List TrelloList :=
  [⟨"l1", "To Do", some 1⟩, ⟨"l2", "Done", some 2⟩,
   ⟨"l3", "Blocked", some 3⟩, ⟨"l4", "Review", some 4⟩]

def c7cSnap : SnapshotDict := { cards := c7Cards, lists := c7cLists }

/-- C7 counterexample: the claim quantifies over EVERY snapshot of 10
cards with exactly 3 in `"Done"` and no labels, comments or due dates,
and asserts exactly one recommendation.  This concrete snapshot fits
that description (first three conjuncts) yet yields TWO recommendations:
the two empty lists drag the per-list average down to `5/2`, so
`"To Do"` (7 cards, ratio `14/5 > 2`) is flagged as a process bottleneck
and `_generate_recommendations` emits a `"process"` recommendation next
to the `"completion_rate"` one. -/
theorem c7_exactly_one_recommendation_fails :
    c7cSnap.cards.length = 10 ∧
    (alGet (metricsCardsByList c7cSnap.cards c7cSnap.lists) "Done").getD 0 = 3 ∧
    (∀ c ∈ c7cSnap.cards,
      c.labels = none ∧ c.comments = none ∧ c.actions = none ∧ c.due = none) ∧
    (analyzeSprintData c7cSnap 0).res.map
      (fun r => r.recommendations.map (fun x => x.category))
      = some ["completion_rate", "process"] := by
  refine ⟨by decide, by decide, by decide, ?_⟩
  have hcbl : metricsCardsByList c7Cards c7cLists
      = [("To Do", 7), ("Done", 3), ("Blocked", 0), ("Review", 0)] := by decide
  have hdone : (alGet (metricsCardsByList c7Cards c7cLists) "Done").getD 0 = 3 := by
    rw [hcbl]
    decide
  have hlen : c7Cards.length = 10 := by decide
  have hrate : metricsCompletionRate c7Cards c7cLists = 30 := by
    rw [metricsCompletionRate, hdone, hlen]
    norm_num
  have hblk : metricsBlockers c7Cards c7cLists = [] := by decide
  have happ : metricsApproaching 0 c7Cards c7cLists = [] := by decide
  have hovr : metricsOverdue 0 c7Cards c7cLists = [] := by decide
  have hmwh : tpHighWorkload c7Cards [] 0 = [] := by decide
  have hpcbl : pbCardsByList c7Cards c7cLists
      = [("To Do", 7), ("Done", 3), ("Blocked", 0), ("Review", 0)] := by decide
  have hpavg : pbAvg c7Cards c7cLists = 5 / 2 := by
    rw [pbAvg, hpcbl]
    norm_num
  have hpbB : pbBottlenecks c7Cards c7cLists
      = [⟨"To Do", 7, 14 / 5⟩] := by
    rw [pbBottlenecks, hpavg, hpcbl]
    norm_num [List.filterMap_cons]
  have p1 : (calculateSprintMetrics c7Cards c7cLists 0).completion_rate = 30 := hrate
  have p2 : (calculateSprintMetrics c7Cards c7cLists 0).blockers = [] := hblk
  have p3 : (calculateSprintMetrics c7Cards c7cLists 0).approaching_deadlines = [] :=
    happ
  have p4 : (calculateSprintMetrics c7Cards c7cLists 0).overdue_cards = [] := hovr
  have p5 : (analyzeTeamPerformance c7Cards [] 0).members_with_high_workload = [] :=
    hmwh
  have p6 : (identifyProcessBottlenecks c7Cards c7cLists).bottlenecks
      = [⟨"To Do", 7, 14 / 5⟩] := hpbB
  have hrisks : identifyRisks c7Cards (calculateSprintMetrics c7Cards c7cLists 0)
      (analyzeTeamPerformance c7Cards [] 0)
      (identifyProcessBottlenecks c7Cards c7cLists)
      = [⟨RiskCat.completion_rate, Severity.high⟩,
         ⟨RiskCat.process_bottlenecks, Severity.high⟩] := by
    simp only [identifyRisks, p1, p2, p3, p4, p5, p6]
    norm_num [List.any_cons, List.any_nil]
  have hrecs : generateRecommendations
      [⟨RiskCat.completion_rate, Severity.high⟩,
       ⟨RiskCat.process_bottlenecks, Severity.high⟩]
      (calculateSprintMetrics c7Cards c7cLists 0)
      (analyzeTeamPerformance c7Cards [] 0)
      (identifyProcessBottlenecks c7Cards c7cLists)
      = [⟨"completion_rate", RecPriority.high⟩,
         ⟨"process", RecPriority.medium⟩] := by decide
  have hok : (analyzeSprintData c7cSnap 0).res.map
      (fun r => r.recommendations.map (fun x => x.category))
      = some ((generateRecommendations
          (identifyRisks c7Cards (calculateSprintMetrics c7Cards c7cLists 0)
            (analyzeTeamPerformance c7Cards [] 0)
            (identifyProcessBottlenecks c7Cards c7cLists))
          (calculateSprintMetrics c7Cards c7cLists 0)
          (analyzeTeamPerformance c7Cards [] 0)
          (identifyProcessBottlenecks c7Cards c7cLists)).map
            (fun x => x.category)) := rfl
  rw [hok, hrisks, hrecs]
  rfl

/-! ### C9 — normalized cards carry `members`, not `idMembers` -/

theorem tpStep_no_idMembers (mm : List (String × String)) (now : Int)
    (acc : List (String × MemberStats)) (c : CardDict) (hc : c.idMembers = none) :
    tpStep mm now acc c = acc := by
  simp [tpStep, hc]

theorem tpFold_no_idMembers (mm : List (String × String)) (now : Int) :
    ∀ (cards : List CardDict), (∀ c ∈ cards, c.idMembers = none) →
      ∀ acc, cards.foldl (tpStep mm now) acc = acc := by
  intro cards
  induction cards with
  | nil =>
      intro _ acc
      rfl
  | cons c t ih =>
      intro h acc
      rw [List.foldl_cons, tpStep_no_idMembers mm now acc c (h c (by simp))]
      exact ih (fun x hx => h x (by simp [hx])) acc

/-- C9 (implicit): every card produced by `_process_card` carries a
`members` key but no `idMembers` key; consequently
`analyze_team_performance` — which reads `card.get("idMembers", [])` —
applied to the output of the normalizer finds no member references at all:
`cards_by_member` is empty, the average and member count are `0`, and no
high-workload member is ever reported. -/
theorem c9_processed_cards_no_idMembers (bd : BoardData) (pb : ProcessedBoard)
    (members : List TrelloMember) (now : Int)
    (h : processTrelloData bd = .ok pb) :
    (∀ c ∈ pb.cards, c.idMembers = none ∧ c.members ≠ none) ∧
    analyzeTeamPerformance pb.cards members now = ⟨[], 0, [], 0⟩ := by
  have hcards : ∀ c ∈ pb.cards, c.idMembers = none ∧ c.members ≠ none := by
    cases hb : bd.error with
    | some m =>
        unfold processTrelloData at h
        rw [hb] at h
        simp at h
    | none =>
        unfold processTrelloData at h
        rw [hb] at h
        injection h with h2
        intro c hcmem
        rw [← h2] at hcmem
        have hcm2 : c ∈ bd.cards.map (fun x => processCard x
            (bd.lists.foldl (fun m l => alSet m l.id l) [])
            (bd.members.foldl (fun m x => alSet m x.id x) [])) := hcmem
        obtain ⟨a, _, rfl⟩ := List.mem_map.mp hcm2
        exact ⟨rfl, by simp [processCard]⟩
  refine ⟨hcards, ?_⟩
  have hfold : pb.cards.foldl (tpStep (memberMapOf members) now) [] = [] :=
    tpFold_no_idMembers _ _ pb.cards (fun c hc => (hcards c hc).1) []
  have hcbm : tpCardsByMember pb.cards members now = [] := by
    rw [tpCardsByMember, hfold]
    rfl
  have h1 : tpAvg pb.cards members now = 0 := by
    rw [tpAvg, hcbm]
    rfl
  have h2 : tpHighWorkload pb.cards members now = [] := by
    rw [tpHighWorkload, hcbm]
    rfl
  rw [analyzeTeamPerformance, hcbm, h1, h2]
  rfl

def c9Board : BoardData :=
  { cards := [{ idMembers := some ["m1"] }]
    lists := [⟨"l1", "To Do", some 1⟩]
    members := [⟨"m1", some "Alice", none⟩] }

def c9Processed : ProcessedBoard :=
  (processTrelloData c9Board).res.getD ⟨none, [], [], [], [], none⟩

theorem c9_processed_cards_no_idMembers_witness :
    analyzeTeamPerformance c9Processed.cards [] 0 = ⟨[], 0, [], 0⟩ :=
  (c9_processed_cards_no_idMembers c9Board c9Processed [] 0 (by decide)).2

/-! ### C3 — recommendation count equals collapsed category count -/

theorem mem_image_cr (t : List RiskCat) :
    "completion_rate" ∈ t.map recCategory ↔ RiskCat.completion_rate ∈ t := by
  rw [List.mem_map]
  constructor
  · rintro ⟨y, hy, he⟩
    cases y <;> first
      | exact hy
      | exact absurd he (by decide)
  · intro h
    exact ⟨_, h, rfl⟩

theorem mem_image_bl (t : List RiskCat) :
    "blockers" ∈ t.map recCategory ↔ RiskCat.blockers ∈ t := by
  rw [List.mem_map]
  constructor
  · rintro ⟨y, hy, he⟩
    cases y <;> first
      | exact hy
      | exact absurd he (by decide)
  · intro h
    exact ⟨_, h, rfl⟩

theorem mem_image_dl (t : List RiskCat) :
    "deadlines" ∈ t.map recCategory ↔
      RiskCat.approaching_deadlines ∈ t ∨ RiskCat.overdue ∈ t := by
  rw [List.mem_map]
  constructor
  · rintro ⟨y, hy, he⟩
    cases y with
    | approaching_deadlines => exact Or.inl hy
    | overdue => exact Or.inr hy
    | completion_rate => exact absurd he (by decide)
    | blockers => exact absurd he (by decide)
    | workload_imbalance => exact absurd he (by decide)
    | process_bottlenecks => exact absurd he (by decide)
  · rintro (h | h)
    · exact ⟨_, h, rfl⟩
    · exact ⟨_, h, rfl⟩

theorem mem_image_wl (t : List RiskCat) :
    "workload" ∈ t.map recCategory ↔ RiskCat.workload_imbalance ∈ t := by
  rw [List.mem_map]
  constructor
  · rintro ⟨y, hy, he⟩
    cases y <;> first
      | exact hy
      | exact absurd he (by decide)
  · intro h
    exact ⟨_, h, rfl⟩

theorem mem_image_pb (t : List RiskCat) :
    "process" ∈ t.map recCategory ↔ RiskCat.process_bottlenecks ∈ t := by
  rw [List.mem_map]
  constructor
  · rintro ⟨y, hy, he⟩
    cases y <;> first
      | exact hy
      | exact absurd he (by decide)
  · intro h
    exact ⟨_, h, rfl⟩

theorem recSlots_length (cats : List RiskCat) :
    (recSlots cats).length =
      (if RiskCat.completion_rate ∈ cats then 1 else 0)
      + (if RiskCat.blockers ∈ cats then 1 else 0)
      + (if RiskCat.approaching_deadlines ∈ cats ∨ RiskCat.overdue ∈ cats then 1 else 0)
      + (if RiskCat.workload_imbalance ∈ cats then 1 else 0)
      + (if RiskCat.process_bottlenecks ∈ cats then 1 else 0) := by
  rw [recSlots]
  split_ifs <;> simp

theorem recSlots_ne_nil (cats : List RiskCat) (h : cats ≠ []) :
    (recSlots cats).isEmpty = false := by
  obtain ⟨x, hx⟩ := List.exists_mem_of_ne_nil cats h
  cases x <;> simp [recSlots, hx]

/-- Cardinality of the collapsed-category image, slot by slot. -/
theorem collapsed_card (L : List RiskCat) :
    (L.map recCategory).toFinset.card =
      (if RiskCat.completion_rate ∈ L then 1 else 0)
      + (if RiskCat.blockers ∈ L then 1 else 0)
      + (if RiskCat.approaching_deadlines ∈ L ∨ RiskCat.overdue ∈ L then 1 else 0)
      + (if RiskCat.workload_imbalance ∈ L then 1 else 0)
      + (if RiskCat.process_bottlenecks ∈ L then 1 else 0) := by
  induction L with
  | nil => simp
  | cons c t ih =>
      rw [List.map_cons, List.toFinset_cons]
      cases c with
      | completion_rate =>
          by_cases hm : RiskCat.completion_rate ∈ t
          · rw [Finset.insert_eq_self.mpr (by
              rw [List.mem_toFinset]
              exact (mem_image_cr t).mpr hm), ih]
            simp [List.mem_cons, hm] <;> omega
          · rw [Finset.card_insert_of_not_mem (by
              rw [List.mem_toFinset]
              exact fun hx => hm ((mem_image_cr t).mp hx)), ih]
            simp [List.mem_cons, hm] <;> omega
      | blockers =>
          by_cases hm : RiskCat.blockers ∈ t
          · rw [Finset.insert_eq_self.mpr (by
              rw [List.mem_toFinset]
              exact (mem_image_bl t).mpr hm), ih]
            simp [List.mem_cons, hm] <;> omega
          · rw [Finset.card_insert_of_not_mem (by
              rw [List.mem_toFinset]
              exact fun hx => hm ((mem_image_bl t).mp hx)), ih]
            simp [List.mem_cons, hm] <;> omega
      | approaching_deadlines =>
          by_cases hm : RiskCat.approaching_deadlines ∈ t ∨ RiskCat.overdue ∈ t
          · rw [Finset.insert_eq_self.mpr (by
              rw [List.mem_toFinset]
              exact (mem_image_dl t).mpr hm), ih]
            simp [List.mem_cons, hm] <;> omega
          · rw [Finset.card_insert_of_not_mem (by
              rw [List.mem_toFinset]
              exact fun hx => hm ((mem_image_dl t).mp hx)), ih]
            simp [List.mem_cons, hm] <;> omega
      | overdue =>
          by_cases hm : RiskCat.approaching_deadlines ∈ t ∨ RiskCat.overdue ∈ t
          · rw [Finset.insert_eq_self.mpr (by
              rw [List.mem_toFinset]
              exact (mem_image_dl t).mpr hm), ih]
            simp [List.mem_cons, hm] <;> omega
          · rw [Finset.card_insert_of_not_mem (by
              rw [List.mem_toFinset]
              exact fun hx => hm ((mem_image_dl t).mp hx)), ih]
            simp [List.mem_cons, hm] <;> omega
      | workload_imbalance =>
          by_cases hm : RiskCat.workload_imbalance ∈ t
          · rw [Finset.insert_eq_self.mpr (by
              rw [List.mem_toFinset]
              exact (mem_image_wl t).mpr hm), ih]
            simp [List.mem_cons, hm] <;> omega
          · rw [Finset.card_insert_of_not_mem (by
              rw [List.mem_toFinset]
              exact fun hx => hm ((mem_image_wl t).mp hx)), ih]
            simp [List.mem_cons, hm] <;> omega
      | process_bottlenecks =>
          by_cases hm : RiskCat.process_bottlenecks ∈ t
          · rw [Finset.insert_eq_self.mpr (by
              rw [List.mem_toFinset]
              exact (mem_image_pb t).mpr hm), ih]
            simp [List.mem_cons, hm] <;> omega
          · rw [Finset.card_insert_of_not_mem (by
              rw [List.mem_toFinset]
              exact fun hx => hm ((mem_image_pb t).mp hx)), ih]
            simp [List.mem_cons, hm] <;> omega

/-- C3: the number of recommendations generated by
`_generate_recommendations` equals the number of distinct risk categories
after collapsing `approaching_deadlines` and `overdue` into the single
`deadlines` recommendation, and equals exactly 1 (the low-priority
fallback) when the risk list is empty. -/
theorem c3_recommendation_count (risks : List Risk) (m : SprintMetrics)
    (tp : TeamPerformance) (pb : BottleneckResult) :
    (generateRecommendations risks m tp pb).length =
      if risks = [] then 1
      else ((risks.map (fun r => r.category)).map recCategory).toFinset.card := by
  by_cases hr : risks = []
  · subst hr
    simp [generateRecommendations, recSlots]
  · rw [if_neg hr]
    have hcats : risks.map (fun r => r.category) ≠ [] := by
      simpa using hr
    have hnn : (recSlots (risks.map (fun r => r.category))).isEmpty = false :=
      recSlots_ne_nil _ hcats
    simp only [generateRecommendations, hnn, Bool.false_eq_true, if_false]
    rw [recSlots_length, collapsed_card]

end Scrum
